import Mathlib

/-!
Verification development for the real-time VAD wrapper
(`src/packages/web/src/real-time-vad.ts`).

The repository slice under `src/` contains the wrapper classes `MicVAD` and
`AudioNodeVAD`.  The collaborators imported from `./_common` (the `Message`
enum, `FrameProcessor`, `validateOptions`, `defaultFrameProcessorOptions`)
are not part of the visible slice; where a claim depends on them they are
modelled from the specification, and each such definition says so in its
doc comment.  Audio samples are modelled as rationals (the TypeScript code
uses `Float32Array`; only equality with zero, ordering against thresholds,
and lengths matter to the claims, all of which are exact operations).
-/

namespace VAD

/-- The `Message` enum imported from `_common`.  Modelled from the spec and
from its usage in `real-time-vad.ts` (cases `AudioFrame`, `SpeechStart`,
`VADMisfire`, `SpeechEnd`, `SpeechSegment`). -/
inductive Msg
  | audioFrame
  | speechStart
  | vadMisfire
  | speechEnd
  | speechSegment
  deriving DecidableEq, Repr

/-- `SpeechProbabilities` from `_common`: a pair (notSpeech, isSpeech). -/
structure SpeechProbabilities where
  notSpeech : ℚ
  isSpeech : ℚ
  deriving DecidableEq, Repr

/-- A frame as constructed in `AudioNodeVAD.processFrame` (line 181):
samples plus the silence flag. -/
structure Frame where
  samples : List ℚ
  isEmpty : Bool
  deriving DecidableEq, Repr

/-- Embedding of line 181 of `real-time-vad.ts`:
`const frame = { samples, isEmpty: !samples.some((s) => s === 0) }`.
JavaScript `Array.some` is `List.any`. -/
def mkFrame (samples : List ℚ) : Frame :=
  { samples := samples, isEmpty := !samples.any (fun s => s == 0) }

/-- A frame "carries no audio" when every sample is exactly zero (the
device-muted / placeholder case the spec describes). -/
def allZero (samples : List ℚ) : Bool :=
  samples.all (fun s => s == 0)

/-- The value `{ probs, msg, audio }` returned by `FrameProcessor.process`,
as destructured at line 182.  Each component may be absent (`undefined`). -/
structure ProcessResult where
  probs : Option SpeechProbabilities
  msg : Option Msg
  audio : Option (List ℚ)
  deriving DecidableEq, Repr

/-- One observable user-callback invocation made by `processFrame`. -/
inductive CallbackCall
  | onFrameProcessed (p : SpeechProbabilities)
  | onSpeechStart
  | onVADMisfire
  | onSpeechEnd (audio : Option (List ℚ))
  | onSpeechSegment (audio : Option (List ℚ))
  deriving DecidableEq, Repr

/-- Whether a callback invocation is one of the four lifecycle callbacks
(everything except `onFrameProcessed`). -/
def CallbackCall.isLifecycle : CallbackCall → Bool
  | .onFrameProcessed _ => false
  | _ => true

/-- Embedding of the body of `AudioNodeVAD.processFrame` after the
`frameProcessor.process` call (lines 183-207): the `if (probs !== undefined)`
guard followed by the `switch (msg)` dispatch, as the ordered list of
user-callback invocations it performs. -/
def dispatchCallbacks (r : ProcessResult) : List CallbackCall :=
  (match r.probs with
    | some p => [CallbackCall.onFrameProcessed p]
    | none => []) ++
  (match r.msg with
    | some Msg.speechStart => [CallbackCall.onSpeechStart]
    | some Msg.vadMisfire => [CallbackCall.onVADMisfire]
    | some Msg.speechEnd => [CallbackCall.onSpeechEnd r.audio]
    | some Msg.speechSegment => [CallbackCall.onSpeechSegment r.audio]
    | _ => [])

/-- The data carried by a message on the worklet node's port, as consumed
by the `onmessage` handler installed in `AudioNodeVAD.init` (lines 234-245):
an optional `message` tag and the transferred audio buffer. -/
structure PortMessageData where
  message : Option Msg
  data : List ℚ
  deriving DecidableEq, Repr

/-- Embedding of the port `onmessage` handler (lines 234-245): the switch on
`ev.data?.message` calls `processFrame` on the carried buffer only in the
`Message.AudioFrame` case; every other shape falls to the empty `default`
branch.  The result is the samples handed to `processFrame`, or `none`
when `processFrame` is not called. -/
def onPortMessage (ev : Option PortMessageData) : Option (List ℚ) :=
  match ev with
  | some d =>
      match d.message with
      | some Msg.audioFrame => some d.data
      | _ => none
  | none => none

/-- The `FrameProcessorOptions` handed to the `FrameProcessor` constructor
(lines 224-232 of `real-time-vad.ts`).  Frame counts are integers so that the
out-of-range values the validator must reject are representable. -/
structure FrameProcessorOptions where
  frameSamples : ℤ
  positiveSpeechThreshold : ℚ
  negativeSpeechThreshold : ℚ
  redemptionFrames : ℤ
  preSpeechPadFrames : ℤ
  minSpeechFrames : ℤ
  maxSpeechFrames : ℤ
  deriving DecidableEq, Repr

/-- Modelled from the spec: the `FrameProcessor` state (the segmenter of
spec section 3/4.1), whose source lives in `_common`, not under `src/`.
`ring` is the RingPadBuffer (oldest first, length at most
`preSpeechPadFrames`), `utter` the UtteranceBuffer, `speaking` the
`Idle`/`ActiveSpeech` distinction, `redemption` the redemption counter,
`accumulated` the number of frames accumulated across the current utterance
including flushed segments, `active` the pause gate toggled by
`pause`/`resume`, and `modelResets` counts `resetState` calls on the
probability model. -/
structure FPState where
  ring : List Frame
  utter : List Frame
  speaking : Bool
  redemption : ℤ
  accumulated : ℤ
  active : Bool
  modelResets : ℕ
  deriving DecidableEq, Repr

/-- The initial segmenter state: empty buffers, `Idle`, counters zero,
frame delivery enabled. -/
def FPState.initial : FPState :=
  { ring := [], utter := [], speaking := false, redemption := 0,
    accumulated := 0, active := true, modelResets := 0 }

/-- Push a frame into the ring pad buffer, evicting the oldest entries so
that at most `cap` frames remain (spec section 3, RingPadBuffer). -/
def pushRing (cap : ℤ) (f : Frame) (ring : List Frame) : List Frame :=
  let r := ring ++ [f]
  r.drop (r.length - cap.toNat)

/-- Flat concatenation of the frames' samples in arrival order (spec
section 4.1, output audio convention). -/
def concatAudio (frames : List Frame) : List ℚ :=
  (frames.map Frame.samples).flatten

/-- Modelled from the spec: one step of the segmenter transition logic of
spec section 4.1 (`FrameProcessor.process` is in `_common`, not under
`src/`), taking the already-obtained speech probability.  Step order follows
the spec: the pad buffer always receives the frame; in `Idle` an onset seeds
the utterance buffer with the pad frames preceding the onset frame followed
by the frame itself (spec P5); in `ActiveSpeech` the `maxSpeechFrames` flush
takes priority over the redemption check; a finished utterance emits
`SpeechEnd` when at least `minSpeechFrames` frames accumulated and
`VADMisfire` otherwise, clears the buffer, resets the counter, resets the
model state and returns to `Idle`. -/
def processCore (o : FrameProcessorOptions) (st : FPState) (frame : Frame)
    (probs : SpeechProbabilities) : FPState × ProcessResult :=
  let ringBefore := st.ring
  let ring' := pushRing o.preSpeechPadFrames frame st.ring
  if st.speaking then
    let utter' := st.utter ++ [frame]
    let acc' := st.accumulated + 1
    if (utter'.length : ℤ) ≥ o.maxSpeechFrames then
      ({ st with ring := ring', utter := [], accumulated := acc' },
       ⟨some probs, some Msg.speechSegment, some (concatAudio utter')⟩)
    else if probs.isSpeech < o.negativeSpeechThreshold then
      let red' := st.redemption + 1
      if red' ≥ o.redemptionFrames then
        if acc' ≥ o.minSpeechFrames then
          ({ st with
               ring := ring'
               utter := []
               speaking := false
               redemption := 0
               accumulated := 0
               modelResets := st.modelResets + 1 },
           ⟨some probs, some Msg.speechEnd, some (concatAudio utter')⟩)
        else
          ({ st with
               ring := ring'
               utter := []
               speaking := false
               redemption := 0
               accumulated := 0
               modelResets := st.modelResets + 1 },
           ⟨some probs, some Msg.vadMisfire, none⟩)
      else
        ({ st with
             ring := ring'
             utter := utter'
             redemption := red'
             accumulated := acc' },
         ⟨some probs, none, none⟩)
    else
      ({ st with
           ring := ring'
           utter := utter'
           redemption := 0
           accumulated := acc' },
       ⟨some probs, none, none⟩)
  else
    if probs.isSpeech ≥ o.positiveSpeechThreshold then
      ({ st with
           ring := ring'
           utter := ringBefore ++ [frame]
           speaking := true
           redemption := 0
           accumulated := 1 },
       ⟨some probs, some Msg.speechStart, none⟩)
    else
      ({ st with ring := ring' }, ⟨some probs, none, none⟩)

/-- Modelled from the spec: `FrameProcessor.process` (in `_common`, not
under `src/`).  A frame flagged silent is treated as `isSpeech = 0` and the
probability model is skipped; otherwise the model is invoked on the frame's
samples (spec section 4.1, step 2). -/
def FrameProcessor.process (o : FrameProcessorOptions)
    (infer : List ℚ → SpeechProbabilities) (st : FPState) (frame : Frame) :
    FPState × ProcessResult :=
  processCore o st frame
    (if frame.isEmpty then ⟨1, 0⟩ else infer frame.samples)

/-- Modelled from the spec: `FrameProcessor.pause` (in `_common`, not under
`src/`).  Pausing only gates frame delivery; it is not a state transition
and buffers and counters persist untouched (spec section 4.1,
pause/resume). -/
def FrameProcessor.pause (st : FPState) : FPState :=
  { st with active := false }

/-- Modelled from the spec: `FrameProcessor.resume` (in `_common`, not
under `src/`).  Resuming re-enables frame delivery and nothing else. -/
def FrameProcessor.resume (st : FPState) : FPState :=
  { st with active := true }

/-- Embedding of `AudioNodeVAD.processFrame` (lines 180-208) composed with
the spec-modelled frame processor: build the frame with its silence flag,
run `frameProcessor.process`, then dispatch the user callbacks. -/
def processFrameCalls (o : FrameProcessorOptions)
    (infer : List ℚ → SpeechProbabilities) (st : FPState)
    (samples : List ℚ) : FPState × List CallbackCall :=
  let frame := mkFrame samples
  let res := FrameProcessor.process o infer st frame
  (res.1, dispatchCallbacks res.2)

/-- A reference to a JavaScript callback value.  The five `def...` cases are
the default handlers defined inline in `defaultRealTimeVADOptions`
(lines 77-89); `user n` stands for any caller-supplied closure. -/
inductive CallbackRef
  | defOnFrameProcessed
  | defOnVADMisfire
  | defOnSpeechStart
  | defOnSpeechEnd
  | defOnSpeechSegment
  | user (n : ℕ)
  deriving DecidableEq, Repr

/-- `RealTimeVADOptions` (lines 50-69): frame-processor options, the five
callbacks, the worklet URL, and the optional stream, audio constraints and
model fetcher.  Opaque JavaScript values (streams, constraint objects,
fetchers) are modelled as numeric handles. -/
structure RealTimeVADOptions where
  frameSamples : ℤ
  positiveSpeechThreshold : ℚ
  negativeSpeechThreshold : ℚ
  redemptionFrames : ℤ
  preSpeechPadFrames : ℤ
  minSpeechFrames : ℤ
  maxSpeechFrames : ℤ
  onFrameProcessed : CallbackRef
  onVADMisfire : CallbackRef
  onSpeechStart : CallbackRef
  onSpeechEnd : CallbackRef
  onSpeechSegment : CallbackRef
  workletURL : String
  stream : Option ℕ
  additionalAudioConstraints : Option ℕ
  modelFetcher : Option ℕ
  deriving DecidableEq, Repr

/-- The frame-processor options extracted from full options, mirroring the
record built at lines 225-231 of `real-time-vad.ts`. -/
def RealTimeVADOptions.toFrameProcessorOptions (o : RealTimeVADOptions) :
    FrameProcessorOptions :=
  { frameSamples := o.frameSamples
    positiveSpeechThreshold := o.positiveSpeechThreshold
    negativeSpeechThreshold := o.negativeSpeechThreshold
    redemptionFrames := o.redemptionFrames
    preSpeechPadFrames := o.preSpeechPadFrames
    minSpeechFrames := o.minSpeechFrames
    maxSpeechFrames := o.maxSpeechFrames }

/-- Modelled from the spec: `assetPath` (imported from `./asset-path`, not
under `src/`) resolves a bundled asset file name to a URL; the resolution
itself is irrelevant to the claims, so it is modelled as the identity on
the file name. -/
def assetPath (file : String) : String := file

/-- Embedding of `_getWorkletURL` (lines 71-73). -/
def _getWorkletURL : String := assetPath "vad.worklet.bundle.min.js"

/-- Modelled from the spec: `defaultFrameProcessorOptions` lives in
`_common`, not under `src/`; its exact numeric values are not visible from
the slice, so representative defaults satisfying the configuration
constraints of spec section 6 are used.  No claim depends on the numbers,
only on omitted options resolving to whatever this record holds. -/
def defaultFrameProcessorOptions : FrameProcessorOptions :=
  { frameSamples := 1536
    positiveSpeechThreshold := mkRat 1 2
    negativeSpeechThreshold := mkRat 7 20
    redemptionFrames := 8
    preSpeechPadFrames := 1
    minSpeechFrames := 3
    maxSpeechFrames := 1000 }

/-- Embedding of `defaultRealTimeVADOptions` (lines 75-92): the spread of
`defaultFrameProcessorOptions`, the five default callbacks, the default
worklet URL and `stream: undefined`. -/
def defaultRealTimeVADOptions : RealTimeVADOptions :=
  { frameSamples := defaultFrameProcessorOptions.frameSamples
    positiveSpeechThreshold := defaultFrameProcessorOptions.positiveSpeechThreshold
    negativeSpeechThreshold := defaultFrameProcessorOptions.negativeSpeechThreshold
    redemptionFrames := defaultFrameProcessorOptions.redemptionFrames
    preSpeechPadFrames := defaultFrameProcessorOptions.preSpeechPadFrames
    minSpeechFrames := defaultFrameProcessorOptions.minSpeechFrames
    maxSpeechFrames := defaultFrameProcessorOptions.maxSpeechFrames
    onFrameProcessed := CallbackRef.defOnFrameProcessed
    onVADMisfire := CallbackRef.defOnVADMisfire
    onSpeechStart := CallbackRef.defOnSpeechStart
    onSpeechEnd := CallbackRef.defOnSpeechEnd
    onSpeechSegment := CallbackRef.defOnSpeechSegment
    workletURL := _getWorkletURL
    stream := none
    additionalAudioConstraints := none
    modelFetcher := none }

/-- A caller-supplied `Partial<RealTimeVADOptions>`: every field may be
absent. -/
structure PartialRealTimeVADOptions where
  frameSamples : Option ℤ := none
  positiveSpeechThreshold : Option ℚ := none
  negativeSpeechThreshold : Option ℚ := none
  redemptionFrames : Option ℤ := none
  preSpeechPadFrames : Option ℤ := none
  minSpeechFrames : Option ℤ := none
  maxSpeechFrames : Option ℤ := none
  onFrameProcessed : Option CallbackRef := none
  onVADMisfire : Option CallbackRef := none
  onSpeechStart : Option CallbackRef := none
  onSpeechEnd : Option CallbackRef := none
  onSpeechSegment : Option CallbackRef := none
  workletURL : Option String := none
  stream : Option (Option ℕ) := none
  additionalAudioConstraints : Option (Option ℕ) := none
  modelFetcher : Option (Option ℕ) := none
  deriving DecidableEq, Repr

/-- Embedding of the spread `{ ...defaultRealTimeVADOptions, ...options }`
performed by both `MicVAD.new` (line 104) and `AudioNodeVAD.new`
(lines 156-159): every field present in the caller's object overrides the
default, every absent field keeps the default. -/
def mergeOptions (d : RealTimeVADOptions) (p : PartialRealTimeVADOptions) :
    RealTimeVADOptions :=
  { frameSamples := p.frameSamples.getD d.frameSamples
    positiveSpeechThreshold := p.positiveSpeechThreshold.getD d.positiveSpeechThreshold
    negativeSpeechThreshold := p.negativeSpeechThreshold.getD d.negativeSpeechThreshold
    redemptionFrames := p.redemptionFrames.getD d.redemptionFrames
    preSpeechPadFrames := p.preSpeechPadFrames.getD d.preSpeechPadFrames
    minSpeechFrames := p.minSpeechFrames.getD d.minSpeechFrames
    maxSpeechFrames := p.maxSpeechFrames.getD d.maxSpeechFrames
    onFrameProcessed := p.onFrameProcessed.getD d.onFrameProcessed
    onVADMisfire := p.onVADMisfire.getD d.onVADMisfire
    onSpeechStart := p.onSpeechStart.getD d.onSpeechStart
    onSpeechEnd := p.onSpeechEnd.getD d.onSpeechEnd
    onSpeechSegment := p.onSpeechSegment.getD d.onSpeechSegment
    workletURL := p.workletURL.getD d.workletURL
    stream := p.stream.getD d.stream
    additionalAudioConstraints := p.additionalAudioConstraints.getD d.additionalAudioConstraints
    modelFetcher := p.modelFetcher.getD d.modelFetcher }

/-- The options `MicVAD.new` hands to the `MicVAD` constructor (line 104). -/
def micVADNewOptions (p : PartialRealTimeVADOptions) : RealTimeVADOptions :=
  mergeOptions defaultRealTimeVADOptions p

/-- The options `AudioNodeVAD.new` hands to the `AudioNodeVAD` constructor
(lines 156-159). -/
def audioNodeVADNewOptions (p : PartialRealTimeVADOptions) : RealTimeVADOptions :=
  mergeOptions defaultRealTimeVADOptions p

/-- A configuration error naming the offending option (spec section 7). -/
structure ConfigError where
  offending : String
  deriving DecidableEq, Repr

/-- Modelled from the spec: `validateOptions` lives in `_common`, not under
`src/`.  Per spec section 7 it fails with a `ConfigError` naming the
offending field when a threshold is outside `[0,1]`, when
`negativeSpeechThreshold > positiveSpeechThreshold`, when a frame-count
option that must be positive (`frameSamples`, `minSpeechFrames`) is `<= 0`,
or when `maxSpeechFrames < minSpeechFrames`. -/
def validateOptions (o : RealTimeVADOptions) : Except ConfigError Unit :=
  if o.positiveSpeechThreshold < 0 ∨ 1 < o.positiveSpeechThreshold then
    Except.error ⟨"positiveSpeechThreshold"⟩
  else if o.negativeSpeechThreshold < 0 ∨ 1 < o.negativeSpeechThreshold then
    Except.error ⟨"negativeSpeechThreshold"⟩
  else if o.positiveSpeechThreshold < o.negativeSpeechThreshold then
    Except.error ⟨"negativeSpeechThreshold"⟩
  else if o.frameSamples ≤ 0 then
    Except.error ⟨"frameSamples"⟩
  else if o.minSpeechFrames ≤ 0 then
    Except.error ⟨"minSpeechFrames"⟩
  else if o.maxSpeechFrames < o.minSpeechFrames then
    Except.error ⟨"maxSpeechFrames"⟩
  else
    Except.ok ()

/-- The configuration constraints whose violation must be rejected
(spec sections 6 and 7). -/
def invalidConfig (o : RealTimeVADOptions) : Prop :=
  o.positiveSpeechThreshold < 0 ∨ 1 < o.positiveSpeechThreshold ∨
  o.negativeSpeechThreshold < 0 ∨ 1 < o.negativeSpeechThreshold ∨
  o.positiveSpeechThreshold < o.negativeSpeechThreshold ∨
  o.frameSamples ≤ 0 ∨ o.minSpeechFrames ≤ 0 ∨
  o.maxSpeechFrames < o.minSpeechFrames

instance (o : RealTimeVADOptions) : Decidable (invalidConfig o) := by
  unfold invalidConfig; infer_instance

/-- `f` names an option of `o` that violates its own constraint. -/
def offendsConstraint (o : RealTimeVADOptions) (f : String) : Prop :=
  (f = "positiveSpeechThreshold" ∧
    (o.positiveSpeechThreshold < 0 ∨ 1 < o.positiveSpeechThreshold)) ∨
  (f = "negativeSpeechThreshold" ∧
    (o.negativeSpeechThreshold < 0 ∨ 1 < o.negativeSpeechThreshold ∨
     o.positiveSpeechThreshold < o.negativeSpeechThreshold)) ∨
  (f = "frameSamples" ∧ o.frameSamples ≤ 0) ∨
  (f = "minSpeechFrames" ∧ o.minSpeechFrames ≤ 0) ∨
  (f = "maxSpeechFrames" ∧ o.maxSpeechFrames < o.minSpeechFrames)

/-- The state of a constructed `AudioNodeVAD`: its (validated) options and
the frame processor created in `init` (lines 224-232). -/
structure AudioNodeVADState where
  options : RealTimeVADOptions
  fpOptions : FrameProcessorOptions
  fpState : FPState
  deriving DecidableEq, Repr

/-- The state of a constructed `MicVAD`: its options, the inner
`AudioNodeVAD`, an opaque handle for the audio context and stream created
in `init` (lines 113-133), and the `listening` flag (line 101). -/
structure MicVADState where
  options : RealTimeVADOptions
  audioNodeVAD : AudioNodeVADState
  audioContext : ℕ
  stream : Option ℕ
  listening : Bool
  deriving DecidableEq, Repr

/-- Embedding of the `AudioNodeVAD` constructor (lines 164-166) followed by
`init` (lines 210-246): `validateOptions` runs in the constructor, so a
`ConfigError` is raised before `init` creates the frame processor. -/
def AudioNodeVAD.construct (o : RealTimeVADOptions) :
    Except ConfigError AudioNodeVADState :=
  match validateOptions o with
  | Except.error e => Except.error e
  | Except.ok _ =>
      Except.ok
        { options := o
          fpOptions := o.toFrameProcessorOptions
          fpState := FPState.initial }

/-- Embedding of the `MicVAD` constructor (lines 109-111) followed by
`init` (lines 113-133): `validateOptions` runs in the constructor, so a
`ConfigError` is raised before `init` touches the stream, the audio
context, or the inner `AudioNodeVAD`. -/
def MicVAD.construct (o : RealTimeVADOptions) :
    Except ConfigError MicVADState :=
  match validateOptions o with
  | Except.error e => Except.error e
  | Except.ok _ =>
      match AudioNodeVAD.construct o with
      | Except.error e => Except.error e
      | Except.ok anv =>
          Except.ok
            { options := o
              audioNodeVAD := anv
              audioContext := 0
              stream := o.stream
              listening := false }

/-- Embedding of `AudioNodeVAD.pause` (lines 168-170): it only calls
`frameProcessor.pause()`. -/
def AudioNodeVAD.pause (s : AudioNodeVADState) : AudioNodeVADState :=
  { s with fpState := FrameProcessor.pause s.fpState }

/-- Embedding of `AudioNodeVAD.start` (lines 172-174): it only calls
`frameProcessor.resume()`. -/
def AudioNodeVAD.start (s : AudioNodeVADState) : AudioNodeVADState :=
  { s with fpState := FrameProcessor.resume s.fpState }

/-- Embedding of `MicVAD.pause` (lines 135-138): it calls
`audioNodeVAD.pause()` and sets `listening = false`. -/
def MicVAD.pause (s : MicVADState) : MicVADState :=
  { s with
      audioNodeVAD := AudioNodeVAD.pause s.audioNodeVAD
      listening := false }

/-- Embedding of `MicVAD.start` (lines 140-143): it calls
`audioNodeVAD.start()` and sets `listening = true`. -/
def MicVAD.start (s : MicVADState) : MicVADState :=
  { s with
      audioNodeVAD := AudioNodeVAD.start s.audioNodeVAD
      listening := true }

/-- A lifecycle event observed while running the segmenter over a
probability sequence: the frame index at which it fired, its kind, and its
audio payload when it carries one. -/
structure RunEvent where
  idx : ℕ
  kind : Msg
  audio : Option (List ℚ)
  deriving DecidableEq, Repr

/-- Drive the segmenter over a list of frame/probability pairs in arrival
order (spec section 2 data flow), collecting every emitted lifecycle event
with the index of the frame that produced it. -/
def runSegmenter (o : FrameProcessorOptions)
    (inputs : List (Frame × SpeechProbabilities)) : FPState × List RunEvent :=
  let step := fun (acc : FPState × List RunEvent × ℕ)
      (inp : Frame × SpeechProbabilities) =>
    let res := processCore o acc.1 inp.1 inp.2
    let evs := match res.2.msg with
      | some m => acc.2.1 ++ [⟨acc.2.2, m, res.2.audio⟩]
      | none => acc.2.1
    (res.1, evs, acc.2.2 + 1)
  let out := inputs.foldl step (FPState.initial, [], 0)
  (out.1, out.2.1)

/-- The configuration of the worked example in spec section 8. -/
def exampleOpts : FrameProcessorOptions :=
  { frameSamples := 480
    positiveSpeechThreshold := mkRat 1 2
    negativeSpeechThreshold := mkRat 7 20
    redemptionFrames := 8
    preSpeechPadFrames := 1
    minSpeechFrames := 3
    maxSpeechFrames := 1000 }

/-- The per-frame `isSpeech` probabilities of the worked example, by frame
index 0..14. -/
def exampleProbs : List ℚ :=
  [mkRat 1 10, mkRat 1 10, mkRat 6 10, mkRat 7 10, mkRat 8 10, mkRat 2 10,
   mkRat 1 10, mkRat 1 10, mkRat 1 10, mkRat 1 10, mkRat 1 10, mkRat 1 10,
   mkRat 1 10, mkRat 1 10, mkRat 1 10]

/-- An ordinary (non-silent) frame of 480 samples. -/
def exFrame : Frame :=
  ⟨List.replicate 480 (mkRat 1 2), false⟩

/-- Fifteen ordinary (non-silent) frames of 480 samples each. -/
def exampleFrames : List Frame :=
  List.replicate 15 exFrame

/-- The worked example's run: each frame paired with its probability.  The
spec fixes only `isSpeech`; the segmenter never consults `notSpeech`, which
is set to 1 here. -/
def exampleRun : FPState × List RunEvent :=
  runSegmenter exampleOpts
    (exampleFrames.zip (exampleProbs.map fun p => ⟨mkRat 1 1, p⟩))

/-- Options violating the configuration constraints
(`negativeSpeechThreshold > positiveSpeechThreshold`). -/
def badOptions : RealTimeVADOptions :=
  { defaultRealTimeVADOptions with
      positiveSpeechThreshold := mkRat 1 2
      negativeSpeechThreshold := mkRat 3 4 }

/-- A caller-supplied option object providing some fields and omitting the
rest. -/
def examplePartialOptions : PartialRealTimeVADOptions :=
  { frameSamples := some 480
    onSpeechEnd := some (CallbackRef.user 7)
    stream := some (some 3) }

/-- The segmenter always returns the probability it was given as the
`probs` component of its result. -/
theorem processCore_probs (o : FrameProcessorOptions) (st : FPState)
    (frame : Frame) (pr : SpeechProbabilities) :
    (processCore o st frame pr).2.probs = some pr := by
  simp only [processCore]
  split_ifs <;> rfl

/-- When the processor result carries a probability, the dispatcher invokes
`onFrameProcessed` on it. -/
theorem mem_dispatch_of_probs (r : ProcessResult) (p : SpeechProbabilities)
    (h : r.probs = some p) :
    CallbackCall.onFrameProcessed p ∈ dispatchCallbacks r := by
  unfold dispatchCallbacks
  rw [h]
  exact List.mem_append_left _ (List.mem_singleton.mpr rfl)

/-- C1: the silence flag is intended to be true exactly when the frame
carries no audio, but line 181 computes the opposite: an all-zero
(device-muted) frame gets `isEmpty = false`, while ordinary non-zero audio
containing no exact-zero sample gets `isEmpty = true`.  This theorem
evaluates the code at both failing inputs and records that the computed
flag disagrees with the all-zero test on them. -/
theorem C1_silence_flag_mismatch :
    allZero [0, 0, 0] = true ∧ (mkFrame [0, 0, 0]).isEmpty = false ∧
    allZero [mkRat 1 2, -(mkRat 1 3), mkRat 1 4] = false ∧
    (mkFrame [mkRat 1 2, -(mkRat 1 3), mkRat 1 4]).isEmpty = true := by
  decide

/-- C2: every `processFrame` call reports the probability returned by the
frame processor through `onFrameProcessed`, whatever lifecycle message (if
any) the processor also returned. -/
theorem C2_probability_always_reported (o : FrameProcessorOptions)
    (infer : List ℚ → SpeechProbabilities) (st : FPState)
    (samples : List ℚ) :
    ∃ p, (FrameProcessor.process o infer st (mkFrame samples)).2.probs = some p ∧
      CallbackCall.onFrameProcessed p ∈ (processFrameCalls o infer st samples).2 := by
  refine ⟨if (mkFrame samples).isEmpty then ⟨1, 0⟩
      else infer (mkFrame samples).samples, ?_, ?_⟩
  · exact processCore_probs o st (mkFrame samples) _
  · simp only [processFrameCalls, FrameProcessor.process]
    exact mem_dispatch_of_probs _ _ (processCore_probs o st (mkFrame samples) _)

/-- C3: a single `processFrame` call invokes at most one of the four
lifecycle callbacks, whatever the frame processor returned. -/
theorem C3_at_most_one_lifecycle (r : ProcessResult) :
    ((dispatchCallbacks r).filter CallbackCall.isLifecycle).length ≤ 1 := by
  rcases r with ⟨po, mo, a⟩
  rcases po with _ | p <;> rcases mo with _ | m <;> try cases m
  all_goals simp [dispatchCallbacks, CallbackCall.isLifecycle]

/-- C4: each lifecycle message returned by the frame processor is
dispatched to exactly its own callback with the matching payload:
`SpeechStart` to `onSpeechStart`, `VADMisfire` to `onVADMisfire`,
`SpeechEnd` to `onSpeechEnd` with the returned audio, and `SpeechSegment`
to `onSpeechSegment` with the returned audio. -/
theorem C4_lifecycle_dispatch (r : ProcessResult) :
    (r.msg = some Msg.speechStart →
      (dispatchCallbacks r).filter CallbackCall.isLifecycle =
        [CallbackCall.onSpeechStart]) ∧
    (r.msg = some Msg.vadMisfire →
      (dispatchCallbacks r).filter CallbackCall.isLifecycle =
        [CallbackCall.onVADMisfire]) ∧
    (r.msg = some Msg.speechEnd →
      (dispatchCallbacks r).filter CallbackCall.isLifecycle =
        [CallbackCall.onSpeechEnd r.audio]) ∧
    (r.msg = some Msg.speechSegment →
      (dispatchCallbacks r).filter CallbackCall.isLifecycle =
        [CallbackCall.onSpeechSegment r.audio]) := by
  rcases r with ⟨po, mo, a⟩
  refine ⟨?_, ?_, ?_, ?_⟩ <;> intro h <;> dsimp only at h <;> subst h <;>
    rcases po with _ | p <;>
    simp [dispatchCallbacks, CallbackCall.isLifecycle]

/-- Witness for C4 at a concrete processor result: a `SpeechEnd` message
dispatches exactly `onSpeechEnd` with the returned audio. -/
theorem C4_lifecycle_dispatch_witness :
    (dispatchCallbacks ⟨some ⟨mkRat 1 1, mkRat 1 2⟩, some Msg.speechEnd,
        some [1, 2]⟩).filter CallbackCall.isLifecycle =
      [CallbackCall.onSpeechEnd (some [1, 2])] :=
  (C4_lifecycle_dispatch ⟨some ⟨mkRat 1 1, mkRat 1 2⟩, some Msg.speechEnd,
    some [1, 2]⟩).2.2.1 rfl

/-- C5: an option record violating any configuration constraint is
rejected with a `ConfigError` naming an offending field, and both
constructors fail before any initialization happens. -/
theorem C5_validation_fails_fast (o : RealTimeVADOptions)
    (h : invalidConfig o) :
    ∃ f, validateOptions o = Except.error ⟨f⟩ ∧ offendsConstraint o f ∧
      MicVAD.construct o = Except.error ⟨f⟩ ∧
      AudioNodeVAD.construct o = Except.error ⟨f⟩ := by
  unfold invalidConfig at h
  unfold MicVAD.construct AudioNodeVAD.construct validateOptions
  split_ifs with h1 h2 h3 h4 h5 h6
  · exact ⟨"positiveSpeechThreshold", rfl, Or.inl ⟨rfl, h1⟩, rfl, rfl⟩
  · exact ⟨"negativeSpeechThreshold", rfl,
      Or.inr (Or.inl ⟨rfl, h2.elim Or.inl (fun hx => Or.inr (Or.inl hx))⟩),
      rfl, rfl⟩
  · exact ⟨"negativeSpeechThreshold", rfl,
      Or.inr (Or.inl ⟨rfl, Or.inr (Or.inr h3)⟩), rfl, rfl⟩
  · exact ⟨"frameSamples", rfl, Or.inr (Or.inr (Or.inl ⟨rfl, h4⟩)), rfl, rfl⟩
  · exact ⟨"minSpeechFrames", rfl,
      Or.inr (Or.inr (Or.inr (Or.inl ⟨rfl, h5⟩))), rfl, rfl⟩
  · exact ⟨"maxSpeechFrames", rfl,
      Or.inr (Or.inr (Or.inr (Or.inr ⟨rfl, h6⟩))), rfl, rfl⟩
  · exfalso
    rcases h with h | h | h | h | h | h | h | h
    · exact h1 (Or.inl h)
    · exact h1 (Or.inr h)
    · exact h2 (Or.inl h)
    · exact h2 (Or.inr h)
    · exact h3 h
    · exact h4 h
    · exact h5 h
    · exact h6 h

/-- Witness for C5 at a concrete invalid configuration
(`negativeSpeechThreshold > positiveSpeechThreshold`). -/
theorem C5_validation_fails_fast_witness :
    invalidConfig badOptions ∧
    ∃ f, validateOptions badOptions = Except.error ⟨f⟩ ∧
      offendsConstraint badOptions f ∧
      MicVAD.construct badOptions = Except.error ⟨f⟩ ∧
      AudioNodeVAD.construct badOptions = Except.error ⟨f⟩ :=
  ⟨by decide, C5_validation_fails_fast badOptions (by decide)⟩

set_option maxRecDepth 4000 in
/-- C6: with the worked-example configuration
(frameSamples 480, thresholds 0.5/0.35, redemption 8, pad 1, min 3,
max 1000) and the probability sequence
0.1, 0.1, 0.6, 0.7, 0.8, 0.2, then 0.1 nine times, the lifecycle events
are exactly `SpeechStart` at frame index 2 and `SpeechEnd` at frame
index 12 whose audio payload has exactly 5760 samples. -/
theorem C6_worked_example :
    exampleRun.2.map (fun e => (e.idx, e.kind, e.audio.map List.length)) =
      [(2, Msg.speechStart, none), (12, Msg.speechEnd, some 5760)] := by
  have hp1 : ¬(mkRat 1 10 ≥ mkRat 1 2) := by decide
  have hp6 : mkRat 6 10 ≥ mkRat 1 2 := by decide
  have hp7 : ¬(mkRat 7 10 < mkRat 7 20) := by decide
  have hp8 : ¬(mkRat 8 10 < mkRat 7 20) := by decide
  have hp2 : mkRat 2 10 < mkRat 7 20 := by decide
  have hp1n : mkRat 1 10 < mkRat 7 20 := by decide
  have hp6n : ¬(mkRat 6 10 < mkRat 7 20) := by decide
  have htrace : exampleRun.2 = [⟨2, Msg.speechStart, none⟩,
      ⟨12, Msg.speechEnd, some (concatAudio (List.replicate 12 exFrame))⟩] := by
    simp [exampleRun, runSegmenter, exampleFrames, exampleProbs,
      processCore, pushRing, FPState.initial, exampleOpts,
      hp1, hp6, hp7, hp8, hp2, hp1n, hp6n]
  have hlen : (concatAudio [exFrame, exFrame, exFrame, exFrame, exFrame,
      exFrame, exFrame, exFrame, exFrame, exFrame, exFrame,
      exFrame]).length = 5760 := by
    rw [show [exFrame, exFrame, exFrame, exFrame, exFrame, exFrame, exFrame,
        exFrame, exFrame, exFrame, exFrame, exFrame] =
        List.replicate 12 exFrame from rfl]
    rw [concatAudio, List.map_replicate,
      show exFrame.samples = List.replicate 480 (mkRat 1 2) from rfl,
      List.length_flatten, List.map_replicate, List.length_replicate,
      List.sum_replicate, smul_eq_mul]
  rw [htrace]
  simp [hlen]

/-- C7: pausing and resuming only toggle the frame-delivery gate (and, for
`MicVAD`, the `listening` flag): the frame processor keeps its options and
its entire segmenter state (buffers and counters), and no other wrapper
field changes. -/
theorem C7_pause_resume_only_gate (s : MicVADState) (a : AudioNodeVADState) :
    ((MicVAD.pause s).listening = false ∧
     (MicVAD.pause s).options = s.options ∧
     (MicVAD.pause s).audioContext = s.audioContext ∧
     (MicVAD.pause s).stream = s.stream ∧
     (MicVAD.pause s).audioNodeVAD.options = s.audioNodeVAD.options ∧
     (MicVAD.pause s).audioNodeVAD.fpOptions = s.audioNodeVAD.fpOptions ∧
     (MicVAD.pause s).audioNodeVAD.fpState =
       { s.audioNodeVAD.fpState with active := false }) ∧
    ((MicVAD.start s).listening = true ∧
     (MicVAD.start s).options = s.options ∧
     (MicVAD.start s).audioContext = s.audioContext ∧
     (MicVAD.start s).stream = s.stream ∧
     (MicVAD.start s).audioNodeVAD.options = s.audioNodeVAD.options ∧
     (MicVAD.start s).audioNodeVAD.fpOptions = s.audioNodeVAD.fpOptions ∧
     (MicVAD.start s).audioNodeVAD.fpState =
       { s.audioNodeVAD.fpState with active := true }) ∧
    ((AudioNodeVAD.pause a).options = a.options ∧
     (AudioNodeVAD.pause a).fpOptions = a.fpOptions ∧
     (AudioNodeVAD.pause a).fpState = { a.fpState with active := false } ∧
     (AudioNodeVAD.start a).options = a.options ∧
     (AudioNodeVAD.start a).fpOptions = a.fpOptions ∧
     (AudioNodeVAD.start a).fpState = { a.fpState with active := true }) := by
  repeat' apply And.intro
  all_goals rfl

/-- C8: both `MicVAD.new` and `AudioNodeVAD.new` resolve their options by
overriding `defaultRealTimeVADOptions` pointwise with the caller's fields:
every supplied field is used exactly as given and every omitted field takes
its default (in particular an omitted `stream` stays absent and an omitted
`workletURL` becomes the default worklet URL). -/
theorem C8_options_pointwise (p : PartialRealTimeVADOptions) :
    audioNodeVADNewOptions p = micVADNewOptions p ∧
    (∀ v, p.frameSamples = some v → (micVADNewOptions p).frameSamples = v) ∧
    (p.frameSamples = none → (micVADNewOptions p).frameSamples =
      defaultRealTimeVADOptions.frameSamples) ∧
    (∀ v, p.positiveSpeechThreshold = some v →
      (micVADNewOptions p).positiveSpeechThreshold = v) ∧
    (p.positiveSpeechThreshold = none →
      (micVADNewOptions p).positiveSpeechThreshold =
        defaultRealTimeVADOptions.positiveSpeechThreshold) ∧
    (∀ v, p.negativeSpeechThreshold = some v →
      (micVADNewOptions p).negativeSpeechThreshold = v) ∧
    (p.negativeSpeechThreshold = none →
      (micVADNewOptions p).negativeSpeechThreshold =
        defaultRealTimeVADOptions.negativeSpeechThreshold) ∧
    (∀ v, p.redemptionFrames = some v →
      (micVADNewOptions p).redemptionFrames = v) ∧
    (p.redemptionFrames = none → (micVADNewOptions p).redemptionFrames =
      defaultRealTimeVADOptions.redemptionFrames) ∧
    (∀ v, p.preSpeechPadFrames = some v →
      (micVADNewOptions p).preSpeechPadFrames = v) ∧
    (p.preSpeechPadFrames = none → (micVADNewOptions p).preSpeechPadFrames =
      defaultRealTimeVADOptions.preSpeechPadFrames) ∧
    (∀ v, p.minSpeechFrames = some v →
      (micVADNewOptions p).minSpeechFrames = v) ∧
    (p.minSpeechFrames = none → (micVADNewOptions p).minSpeechFrames =
      defaultRealTimeVADOptions.minSpeechFrames) ∧
    (∀ v, p.maxSpeechFrames = some v →
      (micVADNewOptions p).maxSpeechFrames = v) ∧
    (p.maxSpeechFrames = none → (micVADNewOptions p).maxSpeechFrames =
      defaultRealTimeVADOptions.maxSpeechFrames) ∧
    (∀ v, p.onFrameProcessed = some v →
      (micVADNewOptions p).onFrameProcessed = v) ∧
    (p.onFrameProcessed = none → (micVADNewOptions p).onFrameProcessed =
      defaultRealTimeVADOptions.onFrameProcessed) ∧
    (∀ v, p.onVADMisfire = some v → (micVADNewOptions p).onVADMisfire = v) ∧
    (p.onVADMisfire = none → (micVADNewOptions p).onVADMisfire =
      defaultRealTimeVADOptions.onVADMisfire) ∧
    (∀ v, p.onSpeechStart = some v →
      (micVADNewOptions p).onSpeechStart = v) ∧
    (p.onSpeechStart = none → (micVADNewOptions p).onSpeechStart =
      defaultRealTimeVADOptions.onSpeechStart) ∧
    (∀ v, p.onSpeechEnd = some v → (micVADNewOptions p).onSpeechEnd = v) ∧
    (p.onSpeechEnd = none → (micVADNewOptions p).onSpeechEnd =
      defaultRealTimeVADOptions.onSpeechEnd) ∧
    (∀ v, p.onSpeechSegment = some v →
      (micVADNewOptions p).onSpeechSegment = v) ∧
    (p.onSpeechSegment = none → (micVADNewOptions p).onSpeechSegment =
      defaultRealTimeVADOptions.onSpeechSegment) ∧
    (∀ v, p.workletURL = some v → (micVADNewOptions p).workletURL = v) ∧
    (p.workletURL = none → (micVADNewOptions p).workletURL =
      _getWorkletURL) ∧
    (∀ v, p.stream = some v → (micVADNewOptions p).stream = v) ∧
    (p.stream = none → (micVADNewOptions p).stream = none) ∧
    (∀ v, p.additionalAudioConstraints = some v →
      (micVADNewOptions p).additionalAudioConstraints = v) ∧
    (p.additionalAudioConstraints = none →
      (micVADNewOptions p).additionalAudioConstraints =
        defaultRealTimeVADOptions.additionalAudioConstraints) ∧
    (∀ v, p.modelFetcher = some v → (micVADNewOptions p).modelFetcher = v) ∧
    (p.modelFetcher = none → (micVADNewOptions p).modelFetcher =
      defaultRealTimeVADOptions.modelFetcher) := by
  repeat' apply And.intro
  all_goals intros
  all_goals simp_all [micVADNewOptions, audioNodeVADNewOptions, mergeOptions,
    defaultRealTimeVADOptions]

/-- Witness for C8 at a concrete option object supplying `frameSamples`
and `stream` and omitting `workletURL`. -/
theorem C8_options_pointwise_witness :
    (micVADNewOptions examplePartialOptions).frameSamples = 480 ∧
    (micVADNewOptions examplePartialOptions).workletURL = _getWorkletURL ∧
    (micVADNewOptions examplePartialOptions).stream = some 3 := by
  obtain ⟨a1, a2, a3, a4, a5, a6, a7, a8, a9, a10, a11, a12, a13, a14, a15,
    a16, a17, a18, a19, a20, a21, a22, a23, a24, a25, a26, a27, a28, a29,
    a30, a31, a32, a33⟩ := C8_options_pointwise examplePartialOptions
  exact ⟨a2 480 rfl, a27 rfl, a28 (some 3) rfl⟩

/-- C9: the worklet-port message handler reacts only to messages tagged
`Message.AudioFrame`: for an absent payload or any other tag it calls
nothing, and for an `AudioFrame` message it hands exactly the carried
buffer to `processFrame`. -/
theorem C9_only_audio_frame_processed (ev : Option PortMessageData) :
    ((∀ d, ev = some d → d.message ≠ some Msg.audioFrame) →
      onPortMessage ev = none) ∧
    (∀ d, ev = some d → d.message = some Msg.audioFrame →
      onPortMessage ev = some d.data) := by
  constructor
  · intro h
    rcases ev with _ | ⟨mo, data⟩
    · rfl
    · have hm : mo ≠ some Msg.audioFrame := h ⟨mo, data⟩ rfl
      rcases mo with _ | m
      · rfl
      · cases m <;> first | rfl | exact absurd rfl hm
  · rintro d rfl hm
    rcases d with ⟨mo, data⟩
    dsimp only at hm
    subst hm
    rfl

/-- Witness for C9: a `SpeechStart`-tagged message is ignored while an
`AudioFrame` message forwards its buffer. -/
theorem C9_only_audio_frame_processed_witness :
    onPortMessage (some ⟨some Msg.speechStart, [1, 2]⟩) = none ∧
    onPortMessage (some ⟨some Msg.audioFrame, [1, 2]⟩) = some [1, 2] :=
  ⟨(C9_only_audio_frame_processed (some ⟨some Msg.speechStart, [1, 2]⟩)).1
      (by intro d h
          rw [← Option.some.inj h]
          decide),
   (C9_only_audio_frame_processed (some ⟨some Msg.audioFrame, [1, 2]⟩)).2
      ⟨some Msg.audioFrame, [1, 2]⟩ rfl rfl⟩

/-- C10: whenever the frame processor returns a probability, the dispatch
sequence of `processFrame` begins with the `onFrameProcessed` observation
and everything after it is a lifecycle callback, so no lifecycle callback
ever precedes the probability report for the same frame. -/
theorem C10_report_precedes_lifecycle (r : ProcessResult)
    (p : SpeechProbabilities) (h : r.probs = some p) :
    ∃ rest, dispatchCallbacks r = CallbackCall.onFrameProcessed p :: rest ∧
      ∀ c ∈ rest, c.isLifecycle = true := by
  rcases r with ⟨po, mo, a⟩
  dsimp only at h
  subst h
  rcases mo with _ | m
  · exact ⟨[], rfl, by simp⟩
  · cases m
    · exact ⟨[], rfl, by simp⟩
    · exact ⟨[CallbackCall.onSpeechStart], rfl, by decide⟩
    · exact ⟨[CallbackCall.onVADMisfire], rfl, by decide⟩
    · exact ⟨[CallbackCall.onSpeechEnd a], rfl,
        by simp [CallbackCall.isLifecycle]⟩
    · exact ⟨[CallbackCall.onSpeechSegment a], rfl,
        by simp [CallbackCall.isLifecycle]⟩

/-- Witness for C10 at a concrete result carrying a probability and a
`SpeechStart` message. -/
theorem C10_report_precedes_lifecycle_witness :
    ∃ rest, dispatchCallbacks
        ⟨some ⟨mkRat 1 1, mkRat 1 2⟩, some Msg.speechStart, none⟩ =
      CallbackCall.onFrameProcessed ⟨mkRat 1 1, mkRat 1 2⟩ :: rest ∧
      ∀ c ∈ rest, c.isLifecycle = true :=
  C10_report_precedes_lifecycle _ _ rfl

end VAD
